import Mathlib

/-!
Verification of the marketing-automation backend pipeline.

This file gives a shallow embedding of the backend's pure decision logic:
the Vertex-AI quota-fallback policy of the image synthesis client
(`geminiService.ts`), the refusal heuristics and JSON-reply handling of the
vision/text client (`openaiService.ts`), the upload validator and the
three-stage orchestrator of the image-flow route, the image proxy route,
and configuration loading.  External effects (HTTP calls, S3 uploads,
`JSON.parse`) are passed in as explicit arguments so every definition is
executable; machine strings follow JavaScript semantics (truthiness,
`includes`, `trim`, `toLowerCase`) via the `js*` helpers below.
-/

/-- JavaScript `a || b` on strings: `a` when truthy (non-empty), else `b`. -/
def jsOr (a b : String) : String := if a = "" then b else a

/-- Coerce an optional string (a possibly-`undefined` JS value) to a string. -/
def optStr (o : Option String) : String := o.getD ""

/-- JavaScript truthiness of a possibly-`undefined` string. -/
def truthy (o : Option String) : Bool :=
  match o with
  | none => false
  | some s => s ≠ ""

/-- Does the first list occur at the head of the second list? -/
def hasPrefixAt : List Char → List Char → Bool
  | [], _ => true
  | _ :: _, [] => false
  | p :: ps, h :: hs => (p = h) && hasPrefixAt ps hs

/-- Does the pattern (second argument) occur anywhere inside the first list? -/
def containsList : List Char → List Char → Bool
  | [], pat => pat.isEmpty
  | h :: t, pat => hasPrefixAt pat (h :: t) || containsList t pat

/-- JavaScript `hay.includes(pat)` for strings. -/
def jsIncludes (hay pat : String) : Bool := containsList hay.toList pat.toList

/-- JavaScript `s.startsWith(pre)` for strings. -/
def jsStartsWith (s pre : String) : Bool := hasPrefixAt pre.toList s.toList

/-- JavaScript `s.toLowerCase()` (ASCII case mapping, which is all the code uses). -/
def jsToLower (s : String) : String := String.mk (s.toList.map Char.toLower)

/-- JavaScript `s.toUpperCase()` (ASCII case mapping, which is all the code uses). -/
def jsToUpper (s : String) : String := String.mk (s.toList.map Char.toUpper)

/-- ASCII whitespace recognised by JavaScript `trim` on the code's inputs. -/
def isWsChar (c : Char) : Bool :=
  c = ' ' || c = '\t' || c = '\n' || c = '\r' || c = '\x0b' || c = '\x0c'

/-- JavaScript `s.trim()`. -/
def jsTrim (s : String) : String :=
  String.mk (((s.toList.dropWhile isWsChar).reverse.dropWhile isWsChar).reverse)

/-- JavaScript `s.length` (code-unit count; all strings involved are ASCII). -/
def jsLength (s : String) : Nat := s.toList.length

/-- Image bytes, abstracted as a list of byte values. -/
def ImgBytes : Type := List Nat

instance : DecidableEq ImgBytes := by
  unfold ImgBytes
  infer_instance

deriving instance DecidableEq for Except

/-- A JS `code` field on an error: either a number or a string
(`candidate.code?: number | string` in `geminiService.ts`). -/
inductive JsCode where
  | num (n : Int)
  | str (s : String)
deriving DecidableEq

/-- The shape `GeminiService.isQuotaExhaustedError` reads off a thrown error:
optional `code`, `status`, `details` and `message` fields
(`geminiService.ts` lines 117-122). -/
structure VertexError where
  code : Option JsCode
  status : Option String
  details : Option String
  message : Option String
deriving DecidableEq

/-- `RESOURCE_EXHAUSTED_CODE` from `geminiService.ts`. -/
def resourceExhaustedCode : Int := 8

/-- `RESOURCE_EXHAUSTED_STATUS` from `geminiService.ts`. -/
def resourceExhaustedStatus : String := "RESOURCE_EXHAUSTED"

/-- `GeminiService.isQuotaExhaustedError` (`geminiService.ts` lines 112-137):
quota-exhausted when the `code` field equals the number 8 or the string
`RESOURCE_EXHAUSTED`, or the `status` field equals `RESOURCE_EXHAUSTED`, or
the uppercased string `details + " " + message` (each part defaulting to the
empty string) contains `RESOURCE_EXHAUSTED` or `QUOTA`. -/
def isQuotaExhaustedError (e : VertexError) : Bool :=
  if e.code = some (JsCode.num resourceExhaustedCode)
      ∨ e.code = some (JsCode.str resourceExhaustedStatus)
      ∨ e.status = some resourceExhaustedStatus then
    true
  else
    let detailText := jsToUpper (optStr e.details ++ " " ++ optStr e.message)
    jsIncludes detailText resourceExhaustedStatus || jsIncludes detailText "QUOTA"

/-- Outcome of `GeminiService.generateImage`, keeping track of which provider
produced the image (primary success, fallback invoked, or primary error
rethrown). -/
inductive GenResult where
  | primaryOk (img : ImgBytes)
  | fallbackResult (r : Except String ImgBytes)
  | rethrown (e : VertexError)
deriving DecidableEq

/-- `GeminiService.generateImage` (`geminiService.ts` lines 37-59), with the
primary (Vertex) call's outcome and the fallback provider's outcome passed
as arguments: try the primary; on error, invoke the fallback exactly when
`isQuotaExhaustedError` holds, otherwise rethrow the error unchanged. -/
def generateImage (primary : Except VertexError ImgBytes)
    (fallback : Except String ImgBytes) : GenResult :=
  match primary with
  | .ok img => .primaryOk img
  | .error e =>
    if isQuotaExhaustedError e then .fallbackResult fallback else .rethrown e

/-- The quota condition exactly as claim C1 words it: numeric code 8, or a
textual status field (the `code` or `status` field as a string) equal to
`RESOURCE_EXHAUSTED`, or the uppercased concatenation of the `details` and
`message` fields (no separator) containing `RESOURCE_EXHAUSTED` or `QUOTA`. -/
def claimedQuotaCondition (e : VertexError) : Bool :=
  decide (e.code = some (JsCode.num 8))
    || decide (e.code = some (JsCode.str "RESOURCE_EXHAUSTED"))
    || decide (e.status = some "RESOURCE_EXHAUSTED")
    || jsIncludes (jsToUpper (optStr e.details ++ optStr e.message)) "RESOURCE_EXHAUSTED"
    || jsIncludes (jsToUpper (optStr e.details ++ optStr e.message)) "QUOTA"

/-- The quota condition as amended: the `details`/`message` concatenation is
joined with a single space, exactly as the code builds `detailText`. -/
def amendedQuotaCondition (e : VertexError) : Bool :=
  decide (e.code = some (JsCode.num 8))
    || decide (e.code = some (JsCode.str "RESOURCE_EXHAUSTED"))
    || decide (e.status = some "RESOURCE_EXHAUSTED")
    || jsIncludes (jsToUpper (optStr e.details ++ " " ++ optStr e.message)) "RESOURCE_EXHAUSTED"
    || jsIncludes (jsToUpper (optStr e.details ++ " " ++ optStr e.message)) "QUOTA"

/-- Claim C1 counterexample: the error with `details = "QUO"` and
`message = "TA"` satisfies the claim's quota condition (the separator-less
concatenation `"QUOTA"` contains `QUOTA`), yet `generateImage` does not
invoke the fallback for it: the code joins `details` and `message` with a
space (`"QUO TA"`), classifies the error as not quota-exhausted, and
rethrows it unchanged. -/
theorem c1_counterexample :
    claimedQuotaCondition (VertexError.mk none none (some "QUO") (some "TA")) = true
      ∧ generateImage
          (Except.error (VertexError.mk none none (some "QUO") (some "TA")))
          (Except.ok ([0] : ImgBytes))
        = GenResult.rethrown (VertexError.mk none none (some "QUO") (some "TA")) := by
  constructor
  · decide
  · decide

/-- Claim C1 as amended: the primary provider is attempted first (a primary
success is returned as such), and on a primary error the fallback is invoked
if and only if `isQuotaExhaustedError` holds — which is equivalent to: the
numeric code equals 8, or the `code`/`status` field equals the string
`RESOURCE_EXHAUSTED`, or the uppercased concatenation of `details`, a single
space, and `message` contains `RESOURCE_EXHAUSTED` or `QUOTA`.  Any other
primary error is rethrown unchanged. -/
theorem c1_amended_fallback_policy :
    ∀ (e : VertexError) (fb : Except String ImgBytes) (img : ImgBytes),
      generateImage (Except.ok img) fb = GenResult.primaryOk img
        ∧ generateImage (Except.error e) fb =
            (if isQuotaExhaustedError e then GenResult.fallbackResult fb
             else GenResult.rethrown e)
        ∧ isQuotaExhaustedError e = amendedQuotaCondition e := by
  intro e fb img
  refine ⟨rfl, rfl, ?_⟩
  unfold isQuotaExhaustedError amendedQuotaCondition
  by_cases h1 : e.code = some (JsCode.num resourceExhaustedCode)
      ∨ e.code = some (JsCode.str resourceExhaustedStatus)
      ∨ e.status = some resourceExhaustedStatus
  · rw [if_pos h1]
    rcases h1 with h | h | h <;>
      simp [h, resourceExhaustedCode, resourceExhaustedStatus]
  · rw [if_neg h1]
    push_neg at h1
    obtain ⟨hn, hs, ht⟩ := h1
    simp [resourceExhaustedCode, resourceExhaustedStatus] at hn hs ht
    simp [hn, hs, ht, resourceExhaustedStatus]

/-- The structured result type of the vision/text client's prompt
operations: `PromptGenerationResponse` in `openaiService.ts`. -/
structure PGResponse where
  prompt : String
  isPromptGenerated : Bool
deriving DecidableEq

/-- The Stage-1 refusal heuristic of
`OpenAIService.reconstructPromptFromImage` (`openaiService.ts` lines
347-352): the lowercased reply contains any of the five markers. -/
def stage1IsRefusal (content : String) : Bool :=
  jsIncludes (jsToLower content) "i'm sorry"
    || jsIncludes (jsToLower content) "i can't assist"
    || jsIncludes (jsToLower content) "can't help"
    || jsIncludes (jsToLower content) "cannot"
    || jsIncludes (jsToLower content) "unable to"

/-- The outcome `reconstructPromptFromImage` builds from the model reply
(`openaiService.ts` lines 354-357): the reply itself as the prompt,
`isPromptGenerated` exactly when the reply is not classified as a refusal. -/
def reconstructPromptOutcome (content : String) : PGResponse :=
  { prompt := content, isPromptGenerated := !stage1IsRefusal content }

/-- The refusal heuristic in the `catch` branch of
`OpenAIService.chatCompletionsJSON` (`openaiService.ts` lines 267-271):
four markers only — `"can't help"` is absent from this list. -/
def catchIsRefusal (content : String) : Bool :=
  jsIncludes (jsToLower content) "i'm sorry"
    || jsIncludes (jsToLower content) "i can't assist"
    || jsIncludes (jsToLower content) "cannot"
    || jsIncludes (jsToLower content) "unable to"

/-- A JSON value as the code observes it after `JSON.parse`: a string, a
boolean, `null`, or some other value remembered only by its truthiness. -/
inductive JsVal where
  | vStr (s : String)
  | vBool (b : Bool)
  | vNull
  | vOther (truthyVal : Bool)
deriving DecidableEq

/-- JavaScript truthiness of a parsed JSON value. -/
def JsVal.isTruthy : JsVal → Bool
  | .vStr s => s ≠ ""
  | .vBool b => b
  | .vNull => false
  | .vOther t => t

/-- The object produced by `JSON.parse` on the matched block, keeping the
two fields the code reads (`Partial<PromptGenerationResponse>`); `none`
models an absent (`undefined`) field. -/
structure ParsedPG where
  prompt : Option JsVal
  isPromptGenerated : Option JsVal

/-- The result `chatCompletionsJSON` returns; `prompt` and
`isPromptGenerated` can each carry a non-string / non-boolean JSON value on
the invalid-structure path, so both are `JsVal`. -/
structure JsonPGResult where
  prompt : JsVal
  isPromptGenerated : JsVal
deriving DecidableEq

def braceOpen : Char := Char.ofNat 123

def braceClose : Char := Char.ofNat 125

/-- The regex match `content.match(/\x7b[\s\S]*\x7d/)` in
`chatCompletionsJSON` (`openaiService.ts` line 237): the greedy block from
the first opening brace to the last closing brace, when one exists. -/
def jsonBlockMatch (content : String) : Option String :=
  let cs := content.toList
  match cs.findIdx? (fun c => c = braceOpen), cs.reverse.findIdx? (fun c => c = braceClose) with
  | some i, some jr =>
    let j := cs.length - 1 - jr
    if i ≤ j then some (String.mk ((cs.drop i).take (j - i + 1))) else none
  | _, _ => none

/-- The response-handling tail of `OpenAIService.chatCompletionsJSON`
(`openaiService.ts` lines 234-277), with the platform's `JSON.parse`
passed in as `parse` (`none` models a parse exception):
no block found → plain text with `isPromptGenerated = false`;
parse exception → the `catch` branch's four-marker refusal heuristic;
well-shaped object → trimmed prompt and the parsed flag;
otherwise the invalid-structure defaults. -/
def chatCompletionsJSONResult (content : String)
    (parse : String → Option ParsedPG) : JsonPGResult :=
  match jsonBlockMatch content with
  | none => { prompt := .vStr content, isPromptGenerated := .vBool false }
  | some block =>
    match parse block with
    | none =>
      { prompt := .vStr content, isPromptGenerated := .vBool (!catchIsRefusal content) }
    | some parsed =>
      match parsed.prompt, parsed.isPromptGenerated with
      | some (.vStr p), some (.vBool b) =>
        { prompt := .vStr (jsTrim p), isPromptGenerated := .vBool b }
      | pv, gv =>
        { prompt :=
            match pv with
            | some v => if v.isTruthy then v else .vStr content
            | none => .vStr content,
          isPromptGenerated :=
            match gv with
            | some .vNull => .vBool false
            | none => .vBool false
            | some v => v }

/-- The four markers of the Stage-2 parse-failure fallback heuristic, as a
list (for the amended claim's wording). -/
def stage2FallbackMarkers : List String :=
  ["i'm sorry", "i can't assist", "cannot", "unable to"]

/-- The catch-branch heuristic equals the four-marker list test. -/
theorem catchIsRefusal_eq_markers (c : String) :
    catchIsRefusal c = stage2FallbackMarkers.any (fun m => jsIncludes (jsToLower c) m) := by
  simp only [catchIsRefusal, stage2FallbackMarkers, List.any_cons, List.any_nil]
  cases jsIncludes (jsToLower c) "i'm sorry" <;>
    cases jsIncludes (jsToLower c) "i can't assist" <;>
      cases jsIncludes (jsToLower c) "cannot" <;>
        cases jsIncludes (jsToLower c) "unable to" <;> rfl

/-- Claim C3 counterexample: the reply `"\x7bcan't help\x7d"` contains a
brace-delimited block that is not valid JSON, so its parsing fails; the
Stage-1 five-marker heuristic classifies it as a refusal (it contains
`"can't help"`), so the claim demands `generated = false` — but the
`catch` branch of `chatCompletionsJSON` checks only four markers, none of
which occur, and synthesizes `isPromptGenerated = true`. -/
theorem c3_counterexample :
    stage1IsRefusal "\x7bcan't help\x7d" = true
      ∧ chatCompletionsJSONResult "\x7bcan't help\x7d" (fun _ => none)
          = { prompt := JsVal.vStr "\x7bcan't help\x7d",
              isPromptGenerated := JsVal.vBool true } := by
  constructor
  · decide
  · decide

/-- Claim C3 as amended: when the model reply contains no brace-delimited
block at all, the outcome is the reply with `generated = false` regardless
of content; when a block is found but `JSON.parse` fails, the outcome is
synthesized with the four-marker heuristic `"i'm sorry"`,
`"i can't assist"`, `"cannot"`, `"unable to"` — `"can't help"` is not among
them, so a reply containing only that marker yields `generated = true`. -/
theorem c3_amended_parse_failure_heuristic :
    ∀ (content block : String) (parse : String → Option ParsedPG),
      (jsonBlockMatch content = none →
        chatCompletionsJSONResult content parse
          = { prompt := JsVal.vStr content, isPromptGenerated := JsVal.vBool false })
      ∧ (jsonBlockMatch content = some block → parse block = none →
        chatCompletionsJSONResult content parse
          = { prompt := JsVal.vStr content,
              isPromptGenerated :=
                JsVal.vBool (!stage2FallbackMarkers.any (fun m => jsIncludes (jsToLower content) m)) }) := by
  intro content block parse
  constructor
  · intro h
    simp [chatCompletionsJSONResult, h]
  · intro h hp
    simp [chatCompletionsJSONResult, h, hp, catchIsRefusal_eq_markers]

/-- Witness for `c3_amended_parse_failure_heuristic` at the reply
`"\x7bhm\x7d"`, whose block fails to parse. -/
theorem c3_amended_parse_failure_heuristic_witness :
    chatCompletionsJSONResult "\x7bhm\x7d" (fun _ => none)
      = { prompt := JsVal.vStr "\x7bhm\x7d",
          isPromptGenerated :=
            JsVal.vBool (!stage2FallbackMarkers.any (fun m => jsIncludes (jsToLower "\x7bhm\x7d") m)) } :=
  (c3_amended_parse_failure_heuristic "\x7bhm\x7d" "\x7bhm\x7d" (fun _ => none)).2
    (by decide) rfl

/-- A multipart upload as the validator sees it: declared MIME type and
size in bytes (`Express.Multer.File`'s `mimetype` and `size`). -/
structure MFile where
  mimetype : String
  size : Nat
deriving DecidableEq

/-- `SUPPORTED_MIME_TYPES` from the image-flow route. -/
def supportedMimeTypes : List String :=
  ["image/png", "image/jpeg", "image/jpg", "image/webp", "image/gif"]

/-- `MAX_PAYLOAD_SIZE = 50 * 1024 * 1024` bytes. -/
def maxPayloadSize : Nat := 50 * 1024 * 1024

/-- The `HttpError(400, ...)` outcomes of the validator, with the message's
variable parts (context, MIME, reported size) kept as structured data. -/
inductive ValError where
  | unsupportedFormat (context mime : String)
  | fileTooLarge (context : String) (sizeBytes : Nat)
  | totalTooLarge (totalBytes : Nat)
deriving DecidableEq

/-- `validateImage` from the image-flow route (lines 260-277): reject an
unsupported MIME type, then reject a file whose size strictly exceeds the
50 MB ceiling (reporting the offending size). -/
def validateImage (f : MFile) (context : String) : Except ValError Unit :=
  if supportedMimeTypes.contains f.mimetype = false then
    .error (.unsupportedFormat context f.mimetype)
  else if maxPayloadSize < f.size then
    .error (.fileTooLarge context f.size)
  else
    .ok ()

/-- The aggregate payload size: base size plus the sum of reference sizes,
as computed in `validateTotalPayloadSize`. -/
def totalPayloadSize (base : MFile) (refs : List MFile) : Nat :=
  base.size + refs.foldl (fun s f => s + f.size) 0

/-- `validateTotalPayloadSize` (lines 282-295): reject when the aggregate
strictly exceeds the 50 MB ceiling, reporting the aggregate. -/
def validateTotalPayloadSize (base : MFile) (refs : List MFile) : Except ValError Unit :=
  if maxPayloadSize < totalPayloadSize base refs then
    .error (.totalTooLarge (totalPayloadSize base refs))
  else
    .ok ()

/-- The `referenceImages.forEach` loop of the route (lines 318-320):
validate each reference with context `"Reference image k"`, stopping at the
first failure. -/
def validateReferenceImages : List MFile → Nat → Except ValError Unit
  | [], _ => .ok ()
  | f :: rest, idx =>
    match validateImage f ("Reference image " ++ Nat.repr (idx + 1)) with
    | .error e => .error e
    | .ok _ => validateReferenceImages rest (idx + 1)

/-- The route's validation sequence (lines 317-321): base image first, then
each reference image, then the aggregate ceiling. -/
def validateRequestImages (base : MFile) (refs : List MFile) : Except ValError Unit :=
  match validateImage base "Base image" with
  | .error e => .error e
  | .ok _ =>
    match validateReferenceImages refs 0 with
    | .error e => .error e
    | .ok _ => validateTotalPayloadSize base refs

/-- Claim C8 counterexample: a 50 MB base plus a reference of 52428801
bytes is a combination whose total strictly exceeds 50 MB, so the claim
demands rejection reporting the aggregate — but the per-file check on the
reference runs first and the request is rejected with the per-file error
reporting the reference's size instead. -/
theorem c8_counterexample :
    validateRequestImages (MFile.mk "image/png" 52428800) [MFile.mk "image/png" 52428801]
        = Except.error (ValError.fileTooLarge "Reference image 1" 52428801)
      ∧ validateRequestImages (MFile.mk "image/png" 52428800) [MFile.mk "image/png" 52428801]
        ≠ Except.error (ValError.totalTooLarge 104857601) := by
  constructor
  · decide
  · decide

/-- Helper: every reference within both ceilings passes the reference
loop, from any starting index. -/
theorem validateReferenceImages_ok (refs : List MFile)
    (h : ∀ r ∈ refs, supportedMimeTypes.contains r.mimetype = true ∧ r.size ≤ maxPayloadSize) :
    ∀ idx, validateReferenceImages refs idx = Except.ok () := by
  induction refs with
  | nil => intro idx; rfl
  | cons f rest ih =>
    intro idx
    obtain ⟨hm, hs⟩ := h f (List.mem_cons_self f rest)
    have hrest : ∀ r ∈ rest, supportedMimeTypes.contains r.mimetype = true ∧ r.size ≤ maxPayloadSize :=
      fun r hr => h r (List.mem_cons_of_mem f hr)
    have hm' : f.mimetype ∈ supportedMimeTypes := by simpa using hm
    simp [validateReferenceImages, validateImage, hm', Nat.not_lt.mpr hs, ih hrest]

/-- Claim C8 as amended: a supported base image of at most (in particular,
exactly) 50 MB with no references passes validation; a supported single
file strictly over 50 MB is rejected with the per-file error reporting its
size; and a combination whose files each pass the per-file check but whose
total strictly exceeds 50 MB is rejected with the aggregate error reporting
the total — so a 50 MB base plus any nonzero reference itself within the
per-file ceiling fails with the aggregate-limit error. -/
theorem c8_amended_payload_ceilings :
    ∀ (base f : MFile) (refs : List MFile) (context : String),
      (supportedMimeTypes.contains base.mimetype = true → base.size ≤ maxPayloadSize →
        validateRequestImages base [] = Except.ok ())
      ∧ (supportedMimeTypes.contains f.mimetype = true → maxPayloadSize < f.size →
        validateImage f context = Except.error (ValError.fileTooLarge context f.size))
      ∧ (supportedMimeTypes.contains base.mimetype = true → base.size ≤ maxPayloadSize →
        (∀ r ∈ refs, supportedMimeTypes.contains r.mimetype = true ∧ r.size ≤ maxPayloadSize) →
        maxPayloadSize < totalPayloadSize base refs →
        validateRequestImages base refs
          = Except.error (ValError.totalTooLarge (totalPayloadSize base refs))) := by
  intro base f refs context
  refine ⟨?_, ?_, ?_⟩
  · intro hm hs
    have hm' : base.mimetype ∈ supportedMimeTypes := by simpa using hm
    have htot : ¬maxPayloadSize < totalPayloadSize base [] := by
      simp [totalPayloadSize]
      exact hs
    simp [validateRequestImages, validateImage, hm', Nat.not_lt.mpr hs,
      validateReferenceImages, validateTotalPayloadSize, htot]
  · intro hm hs
    have hm' : f.mimetype ∈ supportedMimeTypes := by simpa using hm
    simp [validateImage, hm', hs]
  · intro hm hs hrefs htot
    have hm' : base.mimetype ∈ supportedMimeTypes := by simpa using hm
    simp [validateRequestImages, validateImage, hm', Nat.not_lt.mpr hs,
      validateReferenceImages_ok refs hrefs 0, validateTotalPayloadSize, htot]

/-- Witness for `c8_amended_payload_ceilings`: an exactly-50 MB base alone
passes; a 52428801-byte file alone fails per-file; a 50 MB base plus a
1-byte reference fails with the aggregate error. -/
theorem c8_amended_payload_ceilings_witness :
    validateRequestImages (MFile.mk "image/png" 52428800) [] = Except.ok ()
      ∧ validateImage (MFile.mk "image/webp" 52428801) "Base image"
          = Except.error (ValError.fileTooLarge "Base image" 52428801)
      ∧ validateRequestImages (MFile.mk "image/png" 52428800) [MFile.mk "image/jpeg" 1]
          = Except.error (ValError.totalTooLarge
              (totalPayloadSize (MFile.mk "image/png" 52428800) [MFile.mk "image/jpeg" 1])) :=
  ⟨(c8_amended_payload_ceilings (MFile.mk "image/png" 52428800) (MFile.mk "image/webp" 52428801)
      [] "Base image").1 (by decide) (by decide),
   (c8_amended_payload_ceilings (MFile.mk "image/png" 52428800) (MFile.mk "image/webp" 52428801)
      [] "Base image").2.1 (by decide) (by decide),
   (c8_amended_payload_ceilings (MFile.mk "image/png" 52428800) (MFile.mk "image/webp" 52428801)
      [MFile.mk "image/jpeg" 1] "Base image").2.2 (by decide) (by decide) (by decide) (by decide)⟩

/-- The image-proxy route's decision: proceed to fetch a target URL, or
reject with 400 (`badRequest`) / 403 (`forbidden`). -/
inductive ProxyDecision where
  | fetchTarget (u : String)
  | badRequest
  | forbidden
deriving DecidableEq

def hasSchemeAux : List Char → Bool
  | [] => false
  | c :: rest =>
    if c = ':' then true
    else (c.isAlphanum || c = '+' || c = '-' || c = '.') && hasSchemeAux rest

/-- Does the string begin with a URL scheme (letter, then letters, digits,
`+`, `-` or `.`, then a colon)? -/
def hasScheme (s : String) : Bool :=
  match s.toList with
  | [] => false
  | c :: rest => c.isAlpha && hasSchemeAux rest

/-- Models the platform's `new URL(input, base).toString()` for the inputs
arising here: an input carrying a URL scheme is absolute and returned
as-is; a relative input is appended to the base (the configured public base
URL, which ends with a slash in the deployments modelled). -/
def resolveURL (input base : String) : String :=
  if hasScheme input then input else base ++ input

/-- The image-proxy route handler (backend `imageProxy` router, lines
571-595): a truthy `key` parameter wins and the target is computed from it
with no origin check; otherwise a truthy `url` parameter must carry the
configured public base URL as a prefix (when that base is configured) or
the request is rejected with 403; with neither parameter the request is
rejected with 400. -/
def imageProxyHandler (urlParam keyParam : Option String)
    (publicBaseUrl : String) : ProxyDecision :=
  if truthy keyParam then
    .fetchTarget (resolveURL (optStr keyParam) publicBaseUrl)
  else if truthy urlParam then
    if publicBaseUrl ≠ "" ∧ jsStartsWith (optStr urlParam) publicBaseUrl = false then
      .forbidden
    else
      .fetchTarget (optStr urlParam)
  else
    .badRequest

/-- Claim C7 counterexample: a request supplying both `key` and `url`
(with the `url` outside the storage base) neither gets 400 (the claim's
"exactly one" rule) nor 403 (the claim's same-origin rule): the key branch
wins and the request proceeds to a fetch of the key-derived target. -/
theorem c7_counterexample :
    imageProxyHandler (some "https://evil.example/a.png") (some "inputs/a.png")
        "https://cdn.example.com/"
        = ProxyDecision.fetchTarget "https://cdn.example.com/inputs/a.png"
      ∧ imageProxyHandler (some "https://evil.example/a.png") (some "inputs/a.png")
        "https://cdn.example.com/" ≠ ProxyDecision.badRequest
      ∧ imageProxyHandler (some "https://evil.example/a.png") (some "inputs/a.png")
        "https://cdn.example.com/" ≠ ProxyDecision.forbidden := by
  refine ⟨?_, ?_, ?_⟩
  · decide
  · decide
  · decide

/-- Claim C7 as amended: at least one of `key` or `url` must be provided,
otherwise 400; a provided (truthy) `key` takes precedence — even when `url`
is also provided — and the fetch target is computed from the key with no
origin check; when only `url` is provided it must carry the configured
(non-empty) public base URL as a prefix, otherwise 403. -/
theorem c7_amended_proxy_params :
    ∀ (urlParam keyParam : Option String) (base : String),
      (truthy keyParam = false → truthy urlParam = false →
        imageProxyHandler urlParam keyParam base = ProxyDecision.badRequest)
      ∧ (truthy keyParam = true →
        imageProxyHandler urlParam keyParam base
          = ProxyDecision.fetchTarget (resolveURL (optStr keyParam) base))
      ∧ (truthy keyParam = false → truthy urlParam = true → base ≠ "" →
        jsStartsWith (optStr urlParam) base = false →
        imageProxyHandler urlParam keyParam base = ProxyDecision.forbidden)
      ∧ (truthy keyParam = false → truthy urlParam = true →
        jsStartsWith (optStr urlParam) base = true →
        imageProxyHandler urlParam keyParam base
          = ProxyDecision.fetchTarget (optStr urlParam)) := by
  intro urlParam keyParam base
  refine ⟨?_, ?_, ?_, ?_⟩
  · intro hk hu
    simp [imageProxyHandler, hk, hu]
  · intro hk
    simp [imageProxyHandler, hk]
  · intro hk hu hb hs
    simp [imageProxyHandler, hk, hu, hb, hs]
  · intro hk hu hs
    simp [imageProxyHandler, hk, hu, hs]

/-- Witness for `c7_amended_proxy_params`: the four branches at concrete
requests against the base `https://cdn.example.com/`. -/
theorem c7_amended_proxy_params_witness :
    imageProxyHandler none none "https://cdn.example.com/" = ProxyDecision.badRequest
      ∧ imageProxyHandler none (some "inputs/a.png") "https://cdn.example.com/"
          = ProxyDecision.fetchTarget (resolveURL "inputs/a.png" "https://cdn.example.com/")
      ∧ imageProxyHandler (some "https://evil.example/a.png") none "https://cdn.example.com/"
          = ProxyDecision.forbidden
      ∧ imageProxyHandler (some "https://cdn.example.com/inputs/a.png") none "https://cdn.example.com/"
          = ProxyDecision.fetchTarget "https://cdn.example.com/inputs/a.png" :=
  ⟨(c7_amended_proxy_params none none "https://cdn.example.com/").1 (by decide) (by decide),
   (c7_amended_proxy_params none (some "inputs/a.png") "https://cdn.example.com/").2.1 (by decide),
   (c7_amended_proxy_params (some "https://evil.example/a.png") none
      "https://cdn.example.com/").2.2.1 (by decide) (by decide) (by decide) (by decide),
   (c7_amended_proxy_params (some "https://cdn.example.com/inputs/a.png") none
      "https://cdn.example.com/").2.2.2 (by decide) (by decide) (by decide)⟩

/-- Claim C10: the same-origin restriction is enforced only on `url`; for
every request providing a (truthy) `key` the fetch target is computed by
URL-resolving the key against the public base URL with no origin check —
and for the absolute-URL key `https://evil.example/x.png` the resolved
target does not carry the base as a prefix, yet the request is still served
(no 403). -/
theorem c10_key_bypasses_origin_check :
    ∀ (urlParam keyParam : Option String) (base : String),
      (truthy keyParam = true →
        imageProxyHandler urlParam keyParam base
          = ProxyDecision.fetchTarget (resolveURL (optStr keyParam) base))
      ∧ (jsStartsWith (resolveURL "https://evil.example/x.png" "https://cdn.example.com/")
            "https://cdn.example.com/" = false
        ∧ imageProxyHandler none (some "https://evil.example/x.png") "https://cdn.example.com/"
            = ProxyDecision.fetchTarget "https://evil.example/x.png") := by
  intro urlParam keyParam base
  constructor
  · intro hk
    simp [imageProxyHandler, hk]
  · constructor
    · decide
    · decide

/-- Witness for `c10_key_bypasses_origin_check` at a concrete key-only
request. -/
theorem c10_key_bypasses_origin_check_witness :
    imageProxyHandler none (some "https://evil.example/x.png") "https://cdn.example.com/"
      = ProxyDecision.fetchTarget
          (resolveURL "https://evil.example/x.png" "https://cdn.example.com/") :=
  (c10_key_bypasses_origin_check none (some "https://evil.example/x.png")
    "https://cdn.example.com/").1 (by decide)

/-- A stored asset as `storageService.uploadBuffer` returns it: the
server-assigned key and the public URL. -/
structure StoredAsset where
  key : String
  url : String
deriving DecidableEq

/-- An error thrown inside the route: an `HttpError` (status + message) or
a generic `Error` carrying only a message. -/
inductive AppError where
  | http (status : Nat) (message : String)
  | generic (message : String)
deriving DecidableEq

/-- The `message` of a thrown error (`error.message` in the route's catch
blocks, which only ever see `Error` instances in the modelled region). -/
def errMessage : AppError → String
  | .http _ m => m
  | .generic m => m

/-- The image-flow route's JSON response body, with `none` for a field that
is JSON `null` or absent.  The 502 short-circuit bodies omit the key fields
and `step2Executed`; the 200 body carries them all. -/
structure PipelineBody where
  baseImage : String
  baseImageKey : Option String
  referenceImages : List String
  referenceImageKeys : Option (List String)
  prompt1 : Option String
  prompt2 : Option String
  outputImage : Option String
  outputImageKey : Option String
  isPromptGenerated : Bool
  step2Executed : Option Bool
  error : Option String
deriving DecidableEq

/-- An HTTP response from the backend: a pipeline-shaped JSON body, or the
generic error handler's message-only JSON object. -/
inductive HttpResponse where
  | pipelineJson (status : Nat) (body : PipelineBody)
  | errorJson (status : Nat) (message : String)
deriving DecidableEq

/-- `errorHandler` (`errorHandler.ts` lines 13-39) applied to an error the
route's `asyncHandler` forwarded (the `asyncHandler` middleware is not
under src/; per the spec's propagation policy it passes a rejected
promise's error to the error handler unchanged): an `HttpError` keeps its
status and message, anything else becomes a 500 with the fixed message.
The `ZodError` branch is unreachable in the modelled (post-validation)
region. -/
def errorHandlerResponse : AppError → HttpResponse
  | .http s m => .errorJson s m
  | .generic _ => .errorJson 500 "Unexpected error occurred"

/-- The common shape of the route's early 502 returns: URLs of the already
uploaded inputs, the prompts accumulated so far, a diagnostic `error`
string, `isPromptGenerated: false`, `outputImage: null`, and no key /
`step2Executed` fields. -/
def shortCircuitBody (baseUrl : String) (refUrls : List String)
    (p1 p2 : Option String) (err : String) : PipelineBody :=
  { baseImage := baseUrl
    baseImageKey := none
    referenceImages := refUrls
    referenceImageKeys := none
    prompt1 := p1
    prompt2 := p2
    outputImage := none
    outputImageKey := none
    isPromptGenerated := false
    step2Executed := none
    error := some err }

/-- Step 1 of the image-flow route (lines 351-417): the reply of the vision
model (or a thrown transport error) is turned into either a 502 body or the
trimmed `prompt1`.  The outcome is computed from the reply by
`reconstructPromptOutcome`, exactly as `reconstructPromptFromImage` does. -/
def stage1Reconstruct (baseUrl : String) (refUrls : List String)
    (step1 : Except AppError String) : Except PipelineBody String :=
  match step1 with
  | .error e =>
    .error (shortCircuitBody baseUrl refUrls none none
      ("OpenAI prompt reconstruction failed: " ++ errMessage e))
  | .ok content =>
    let outcome := reconstructPromptOutcome content
    if outcome.isPromptGenerated = false then
      .error (shortCircuitBody baseUrl refUrls
        (some (jsOr outcome.prompt "Prompt reconstruction failed")) none
        ("OpenAI could not reconstruct the prompt: "
          ++ jsOr outcome.prompt "Request was refused. Please try with a different image."))
    else
      let trimmed := jsTrim outcome.prompt
      if trimmed = "" ∨ jsLength trimmed < 3 then
        .error (shortCircuitBody baseUrl refUrls
          (some (jsOr trimmed "Invalid prompt")) none
          "OpenAI did not return a valid reconstructed prompt. Please try again with a different image.")
      else
        .ok trimmed

/-- Step 2 of the image-flow route (lines 437-515): the outcome of
`applyUserInstructions` (or a thrown transport error) is turned into either
a 502 body or the trimmed `prompt2`. -/
def stage2Apply (baseUrl : String) (refUrls : List String) (prompt1 : String)
    (step2 : Except AppError PGResponse) : Except PipelineBody String :=
  match step2 with
  | .error e =>
    .error (shortCircuitBody baseUrl refUrls (some prompt1) none
      ("OpenAI prompt editing failed: " ++ errMessage e))
  | .ok pg =>
    if pg.isPromptGenerated = false then
      .error (shortCircuitBody baseUrl refUrls (some prompt1)
        (some (jsOr pg.prompt "Prompt generation failed"))
        ("OpenAI could not generate the prompt: "
          ++ jsOr pg.prompt "Request was refused. Please try different instructions."))
    else
      let trimmed := jsTrim pg.prompt
      if trimmed = "" ∨ jsLength trimmed < 3 then
        .error (shortCircuitBody baseUrl refUrls (some prompt1)
          (some (jsOr trimmed "Invalid prompt"))
          "OpenAI did not return a valid updated prompt. Please try again.")
      else
        .ok trimmed

/-- `geminiService.generateImage` as the orchestrator observes it: the
image bytes, or the error that escaped (a rethrown non-quota Vertex error,
or the fallback's failure) — both plain `Error`s for the error handler. -/
def generateImageResult (vertexRes : Except VertexError ImgBytes)
    (falRes : Except String ImgBytes) : Except AppError ImgBytes :=
  match generateImage vertexRes falRes with
  | .primaryOk img => .ok img
  | .fallbackResult (.ok img) => .ok img
  | .fallbackResult (.error m) => .error (.generic m)
  | .rethrown e => .error (.generic (optStr e.message))

/-- The 200 response body of the image-flow route (lines 537-548): all
fields populated, `isPromptGenerated: true`, no `error` field. -/
def successBody (baseUpload : StoredAsset) (refUploads : List StoredAsset)
    (prompt1 prompt2 : String) (step2Executed : Bool)
    (outUpload : StoredAsset) : PipelineBody :=
  { baseImage := baseUpload.url
    baseImageKey := some baseUpload.key
    referenceImages := refUploads.map (fun u => u.url)
    referenceImageKeys := some (refUploads.map (fun u => u.key))
    prompt1 := some prompt1
    prompt2 := some prompt2
    outputImage := some outUpload.url
    outputImageKey := some outUpload.key
    isPromptGenerated := true
    step2Executed := some step2Executed
    error := none }

/-- The image-flow route handler after validation and input upload (lines
345-550), with every external call's outcome passed as an argument:
`step1` is the vision model's Stage-1 reply, `step2` the Stage-2 outcome
(consulted only when the trimmed user instructions are non-empty),
`vertexRes`/`falRes` the two synthesis providers' outcomes, and
`outputUpload` the output-upload outcome.  Stage-1/2 short-circuits return
502 pipeline bodies; errors thrown by Step 3 or the output upload are not
caught in the route and reach the generic error handler. -/
def imageFlowHandler (baseUpload : StoredAsset) (refUploads : List StoredAsset)
    (userPrompt : Option String)
    (step1 : Except AppError String)
    (step2 : Except AppError PGResponse)
    (vertexRes : Except VertexError ImgBytes)
    (falRes : Except String ImgBytes)
    (outputUpload : Except AppError StoredAsset) : HttpResponse :=
  let baseUrl := baseUpload.url
  let refUrls := refUploads.map (fun u => u.url)
  match stage1Reconstruct baseUrl refUrls step1 with
  | .error body => .pipelineJson 502 body
  | .ok prompt1 =>
    let userIns := jsTrim (optStr userPrompt)
    let step2Res : Except PipelineBody (String × Bool) :=
      if 0 < jsLength userIns then
        match stage2Apply baseUrl refUrls prompt1 step2 with
        | .error body => .error body
        | .ok prompt2 => .ok (prompt2, true)
      else
        .ok (prompt1, false)
    match step2Res with
    | .error body => .pipelineJson 502 body
    | .ok (prompt2, step2Executed) =>
      match generateImageResult vertexRes falRes with
      | .error err => errorHandlerResponse err
      | .ok _img =>
        match outputUpload with
        | .error err => errorHandlerResponse err
        | .ok outUpload =>
          .pipelineJson 200
            (successBody baseUpload refUploads prompt1 prompt2 step2Executed outUpload)

/-- Helper: a Stage-1 failure produces a short-circuit body over the same
base and reference URLs. -/
theorem stage1Reconstruct_error_shape (u : String) (rs : List String)
    (s1 : Except AppError String) (body : PipelineBody)
    (h : stage1Reconstruct u rs s1 = Except.error body) :
    ∃ p1 p2 err, body = shortCircuitBody u rs p1 p2 err := by
  cases s1 with
  | error e =>
    simp only [stage1Reconstruct] at h
    injection h with h'
    exact ⟨_, _, _, h'.symm⟩
  | ok content =>
    simp only [stage1Reconstruct] at h
    split_ifs at h with h1 h2
    · injection h with h'
      exact ⟨_, _, _, h'.symm⟩
    · injection h with h'
      exact ⟨_, _, _, h'.symm⟩

/-- Helper: a Stage-2 failure produces a short-circuit body over the same
base and reference URLs. -/
theorem stage2Apply_error_shape (u : String) (rs : List String) (p1 : String)
    (s2 : Except AppError PGResponse) (body : PipelineBody)
    (h : stage2Apply u rs p1 s2 = Except.error body) :
    ∃ q1 q2 err, body = shortCircuitBody u rs q1 q2 err := by
  cases s2 with
  | error e =>
    simp only [stage2Apply] at h
    injection h with h'
    exact ⟨_, _, _, h'.symm⟩
  | ok pg =>
    simp only [stage2Apply] at h
    split_ifs at h with h1 h2
    · injection h with h'
      exact ⟨_, _, _, h'.symm⟩
    · injection h with h'
      exact ⟨_, _, _, h'.symm⟩

/-- Helper: exhaustive characterisation of the image-flow handler's result:
a Stage-1/2 short-circuit (502 with a short-circuit body), an error that
escaped to the generic error handler (synthesis or output upload), or the
200 success body — with the Stage-2 skip/run bookkeeping recorded. -/
theorem imageFlowHandler_shape
    (base : StoredAsset) (refs : List StoredAsset) (up : Option String)
    (s1 : Except AppError String) (s2 : Except AppError PGResponse)
    (v : Except VertexError ImgBytes) (f : Except String ImgBytes)
    (o : Except AppError StoredAsset) :
    (∃ p1 p2 err,
      imageFlowHandler base refs up s1 s2 v f o
        = HttpResponse.pipelineJson 502
            (shortCircuitBody base.url (refs.map (fun r => r.url)) p1 p2 err))
    ∨ (∃ p1 e,
      stage1Reconstruct base.url (refs.map (fun r => r.url)) s1 = Except.ok p1
        ∧ (generateImageResult v f = Except.error e
            ∨ (∃ img, generateImageResult v f = Except.ok img ∧ o = Except.error e))
        ∧ imageFlowHandler base refs up s1 s2 v f o = errorHandlerResponse e)
    ∨ (∃ p1 p2 flag img out,
      stage1Reconstruct base.url (refs.map (fun r => r.url)) s1 = Except.ok p1
        ∧ generateImageResult v f = Except.ok img
        ∧ o = Except.ok out
        ∧ ((0 < jsLength (jsTrim (optStr up))
              ∧ stage2Apply base.url (refs.map (fun r => r.url)) p1 s2 = Except.ok p2
              ∧ flag = true)
            ∨ (¬0 < jsLength (jsTrim (optStr up)) ∧ p2 = p1 ∧ flag = false))
        ∧ imageFlowHandler base refs up s1 s2 v f o
            = HttpResponse.pipelineJson 200 (successBody base refs p1 p2 flag out)) := by
  cases h1 : stage1Reconstruct base.url (refs.map (fun r => r.url)) s1 with
  | error body =>
    obtain ⟨p1, p2, err, rfl⟩ := stage1Reconstruct_error_shape _ _ _ _ h1
    exact Or.inl ⟨p1, p2, err, by simp only [imageFlowHandler, h1]⟩
  | ok p1 =>
    by_cases hu : 0 < jsLength (jsTrim (optStr up))
    · cases h2 : stage2Apply base.url (refs.map (fun r => r.url)) p1 s2 with
      | error body =>
        obtain ⟨q1, q2, err, rfl⟩ := stage2Apply_error_shape _ _ _ _ _ h2
        exact Or.inl ⟨q1, q2, err, by simp only [imageFlowHandler, h1, if_pos hu, h2]⟩
      | ok p2 =>
        cases hg : generateImageResult v f with
        | error e =>
          exact Or.inr (Or.inl ⟨p1, e, rfl, Or.inl rfl,
            by simp only [imageFlowHandler, h1, if_pos hu, h2, hg]⟩)
        | ok img =>
          cases o with
          | error e =>
            exact Or.inr (Or.inl ⟨p1, e, rfl, Or.inr ⟨img, rfl, rfl⟩,
              by simp only [imageFlowHandler, h1, if_pos hu, h2, hg]⟩)
          | ok out =>
            exact Or.inr (Or.inr ⟨p1, p2, true, img, out, rfl, rfl, rfl,
              Or.inl ⟨hu, h2, rfl⟩,
              by simp only [imageFlowHandler, h1, if_pos hu, h2, hg]⟩)
    · cases hg : generateImageResult v f with
      | error e =>
        exact Or.inr (Or.inl ⟨p1, e, rfl, Or.inl rfl,
          by simp only [imageFlowHandler, h1, if_neg hu, hg]⟩)
      | ok img =>
        cases o with
        | error e =>
          exact Or.inr (Or.inl ⟨p1, e, rfl, Or.inr ⟨img, rfl, rfl⟩,
            by simp only [imageFlowHandler, h1, if_neg hu, hg]⟩)
        | ok out =>
          exact Or.inr (Or.inr ⟨p1, p1, false, img, out, rfl, rfl, rfl,
            Or.inr ⟨hu, rfl, rfl⟩,
            by simp only [imageFlowHandler, h1, if_neg hu, hg]⟩)

/-- Claim C2 counterexample: a request that passes Stage 1 (reply
`"a scenic mountain landscape"`, no user instructions) and then fails
Stage 3 with a non-quota Vertex error is answered by the generic error
handler's bare message-only object `\x7b message: "Unexpected error
occurred" \x7d` with status 500 — not by a pipeline-shaped JSON body with
partial state, as the claim demands for every post-Stage-1 short-circuit. -/
theorem c2_counterexample :
    imageFlowHandler
        (StoredAsset.mk "internaluse/inputs/a.png" "https://cdn.example.com/internaluse/inputs/a.png")
        [] none
        (Except.ok "a scenic mountain landscape")
        (Except.ok (PGResponse.mk "" true))
        (Except.error (VertexError.mk none none none (some "connection reset")))
        (Except.ok ([7] : ImgBytes))
        (Except.ok (StoredAsset.mk "internaluse/outputs/b.png" "https://cdn.example.com/internaluse/outputs/b.png"))
      = HttpResponse.errorJson 500 "Unexpected error occurred" := by
  decide

/-- Claim C2 as amended: Stage-1 and Stage-2 short-circuits are answered
with a pipeline-shaped 502 JSON body carrying the partial state (input
URLs, accumulated prompts, a non-empty error string, `isPromptGenerated:
false`, no output image); but a failure of Stage-3 synthesis or of the
output upload escapes the route uncaught and is answered by the generic
error handler's message-only JSON object. -/
theorem c2_amended_shortcircuit_shapes :
    ∀ (base : StoredAsset) (refs : List StoredAsset) (up : Option String)
      (s1 : Except AppError String) (s2 : Except AppError PGResponse)
      (v : Except VertexError ImgBytes) (f : Except String ImgBytes)
      (o : Except AppError StoredAsset),
      (∀ status body,
        imageFlowHandler base refs up s1 s2 v f o = HttpResponse.pipelineJson status body →
        status = 200
          ∨ (status = 502 ∧ body.error.isSome = true ∧ body.baseImage = base.url
              ∧ body.referenceImages = refs.map (fun r => r.url)
              ∧ body.outputImage = none ∧ body.isPromptGenerated = false))
      ∧ (∀ status msg,
        imageFlowHandler base refs up s1 s2 v f o = HttpResponse.errorJson status msg →
        (∃ p1, stage1Reconstruct base.url (refs.map (fun r => r.url)) s1 = Except.ok p1)
          ∧ ((∃ e, generateImageResult v f = Except.error e)
              ∨ (∃ e, o = Except.error e))) := by
  intro base refs up s1 s2 v f o
  rcases imageFlowHandler_shape base refs up s1 s2 v f o with
    ⟨p1, p2, err, heq⟩ | ⟨p1, e, h1, hwhich, heq⟩ |
    ⟨p1, p2, flag, img, out, h1, hg, ho, hflag, heq⟩
  · constructor
    · intro status body h
      rw [heq] at h
      injection h with hs hb
      subst hs
      subst hb
      exact Or.inr ⟨rfl, by simp [shortCircuitBody], by simp [shortCircuitBody],
        by simp [shortCircuitBody], by simp [shortCircuitBody], by simp [shortCircuitBody]⟩
    · intro status msg h
      rw [heq] at h
      exact HttpResponse.noConfusion h
  · constructor
    · intro status body h
      rw [heq] at h
      cases e with
      | http s m => exact HttpResponse.noConfusion h
      | generic m => exact HttpResponse.noConfusion h
    · intro status msg h
      refine ⟨⟨p1, h1⟩, ?_⟩
      rcases hwhich with hg | ⟨img, hg, ho⟩
      · exact Or.inl ⟨e, hg⟩
      · exact Or.inr ⟨e, ho⟩
  · constructor
    · intro status body h
      rw [heq] at h
      injection h with hs hb
      exact Or.inl hs.symm
    · intro status msg h
      rw [heq] at h
      exact HttpResponse.noConfusion h

/-- Witness for `c2_amended_shortcircuit_shapes`: a concrete request that
passes Stage 1, skips Stage 2, and hits a non-quota synthesis failure. -/
theorem c2_amended_shortcircuit_shapes_witness :
    (∃ p1, stage1Reconstruct "https://cdn.example.com/b.png" []
        (Except.ok "a small red house") = Except.ok p1)
      ∧ ((∃ e, generateImageResult
            (Except.error (VertexError.mk none none none (some "boom")))
            (Except.ok ([1] : ImgBytes)) = Except.error e)
          ∨ (∃ e, (Except.ok (StoredAsset.mk "ok" "ou") : Except AppError StoredAsset)
              = Except.error e)) :=
  (c2_amended_shortcircuit_shapes
    (StoredAsset.mk "bk" "https://cdn.example.com/b.png") [] none
    (Except.ok "a small red house") (Except.ok (PGResponse.mk "x" true))
    (Except.error (VertexError.mk none none none (some "boom")))
    (Except.ok ([1] : ImgBytes))
    (Except.ok (StoredAsset.mk "ok" "ou"))).2 500 "Unexpected error occurred" (by decide)

/-- Helper: a reply classified as a refusal contains a marker, hence is
non-empty. -/
theorem stage1IsRefusal_ne_empty (c : String) (h : stage1IsRefusal c = true) :
    c ≠ "" := by
  intro hc
  subst hc
  exact absurd h (by decide)

/-- Claim C4: for a Stage-1 outcome with `generated = false` the handler
answers 502 with `prompt1` equal to the outcome's prompt text (the reply),
`prompt2` and the output image null, and a non-empty error; for
`generated = true` with a trimmed reply shorter than 3 characters it
answers the same 502 shape with the invalid-prompt wording; otherwise
Stage 1 produces the trimmed reply as `prompt1` and execution continues. -/
theorem c4_stage1_outcomes :
    ∀ (base : StoredAsset) (refs : List StoredAsset) (up : Option String)
      (content : String) (s2 : Except AppError PGResponse)
      (v : Except VertexError ImgBytes) (f : Except String ImgBytes)
      (o : Except AppError StoredAsset),
      ((reconstructPromptOutcome content).isPromptGenerated = false →
        imageFlowHandler base refs up (Except.ok content) s2 v f o
          = HttpResponse.pipelineJson 502
              (shortCircuitBody base.url (refs.map (fun r => r.url))
                (some content) none
                ("OpenAI could not reconstruct the prompt: " ++ content)))
      ∧ ((reconstructPromptOutcome content).isPromptGenerated = true →
          jsLength (jsTrim content) < 3 →
        imageFlowHandler base refs up (Except.ok content) s2 v f o
          = HttpResponse.pipelineJson 502
              (shortCircuitBody base.url (refs.map (fun r => r.url))
                (some (jsOr (jsTrim content) "Invalid prompt")) none
                "OpenAI did not return a valid reconstructed prompt. Please try again with a different image."))
      ∧ ((reconstructPromptOutcome content).isPromptGenerated = true →
          3 ≤ jsLength (jsTrim content) →
        stage1Reconstruct base.url (refs.map (fun r => r.url)) (Except.ok content)
          = Except.ok (jsTrim content)) := by
  intro base refs up content s2 v f o
  refine ⟨?_, ?_, ?_⟩
  · intro h
    have hrefusal : stage1IsRefusal content = true := by
      simpa [reconstructPromptOutcome] using h
    have hne : content ≠ "" := stage1IsRefusal_ne_empty content hrefusal
    have hst : stage1Reconstruct base.url (refs.map (fun r => r.url)) (Except.ok content)
        = Except.error (shortCircuitBody base.url (refs.map (fun r => r.url))
            (some content) none
            ("OpenAI could not reconstruct the prompt: " ++ content)) := by
      simp [stage1Reconstruct, reconstructPromptOutcome, hrefusal, jsOr, hne]
    simp [imageFlowHandler, hst]
  · intro h hlen
    have hnr : stage1IsRefusal content = false := by
      simpa [reconstructPromptOutcome] using h
    have hst : stage1Reconstruct base.url (refs.map (fun r => r.url)) (Except.ok content)
        = Except.error (shortCircuitBody base.url (refs.map (fun r => r.url))
            (some (jsOr (jsTrim content) "Invalid prompt")) none
            "OpenAI did not return a valid reconstructed prompt. Please try again with a different image.") := by
      simp [stage1Reconstruct, reconstructPromptOutcome, hnr, hlen]
    simp [imageFlowHandler, hst]
  · intro h hlen3
    have hnot : ¬(jsTrim content = "" ∨ jsLength (jsTrim content) < 3) := by
      rintro (hc | hc)
      · exact absurd (hc ▸ hlen3) (by decide)
      · omega
    have hnr : stage1IsRefusal content = false := by
      simpa [reconstructPromptOutcome] using h
    simp [stage1Reconstruct, reconstructPromptOutcome, hnr, hnot]

/-- Witness for `c4_stage1_outcomes`: the refusal reply `"cannot"`, the
too-short reply `"ab"`, and the ordinary reply `"a red fox"`. -/
theorem c4_stage1_outcomes_witness :
    imageFlowHandler (StoredAsset.mk "bk" "bu") [] none (Except.ok "cannot")
        (Except.ok (PGResponse.mk "p" true)) (Except.ok ([2] : ImgBytes))
        (Except.ok ([3] : ImgBytes)) (Except.ok (StoredAsset.mk "ok" "ou"))
      = HttpResponse.pipelineJson 502
          (shortCircuitBody "bu" [] (some "cannot") none
            ("OpenAI could not reconstruct the prompt: " ++ "cannot"))
    ∧ imageFlowHandler (StoredAsset.mk "bk" "bu") [] none (Except.ok "ab")
        (Except.ok (PGResponse.mk "p" true)) (Except.ok ([2] : ImgBytes))
        (Except.ok ([3] : ImgBytes)) (Except.ok (StoredAsset.mk "ok" "ou"))
      = HttpResponse.pipelineJson 502
          (shortCircuitBody "bu" [] (some (jsOr (jsTrim "ab") "Invalid prompt")) none
            "OpenAI did not return a valid reconstructed prompt. Please try again with a different image.")
    ∧ stage1Reconstruct "bu" [] (Except.ok "a red fox") = Except.ok (jsTrim "a red fox") :=
  ⟨(c4_stage1_outcomes (StoredAsset.mk "bk" "bu") [] none "cannot"
      (Except.ok (PGResponse.mk "p" true)) (Except.ok ([2] : ImgBytes))
      (Except.ok ([3] : ImgBytes)) (Except.ok (StoredAsset.mk "ok" "ou"))).1 (by decide),
   (c4_stage1_outcomes (StoredAsset.mk "bk" "bu") [] none "ab"
      (Except.ok (PGResponse.mk "p" true)) (Except.ok ([2] : ImgBytes))
      (Except.ok ([3] : ImgBytes)) (Except.ok (StoredAsset.mk "ok" "ou"))).2.1
      (by decide) (by decide),
   (c4_stage1_outcomes (StoredAsset.mk "bk" "bu") [] none "a red fox"
      (Except.ok (PGResponse.mk "p" true)) (Except.ok ([2] : ImgBytes))
      (Except.ok ([3] : ImgBytes)) (Except.ok (StoredAsset.mk "ok" "ou"))).2.2
      (by decide) (by decide)⟩

/-- Claim C5: Stage 2 runs iff the trimmed user instructions are non-empty
(when they are empty the result does not depend on the Stage-2 outcome at
all and a 200 reports `step2Executed = false` with `prompt2 = prompt1`;
when they are non-empty every 200 reports `step2Executed = true`); and in
every 200 response with `step2Executed = false`, `prompt2 = prompt1` and
`isPromptGenerated = true`. -/
theorem c5_step2_skip_invariant :
    ∀ (base : StoredAsset) (refs : List StoredAsset) (up : Option String)
      (s1 : Except AppError String) (s2 s2' : Except AppError PGResponse)
      (v : Except VertexError ImgBytes) (f : Except String ImgBytes)
      (o : Except AppError StoredAsset),
      (¬0 < jsLength (jsTrim (optStr up)) →
        imageFlowHandler base refs up s1 s2 v f o
          = imageFlowHandler base refs up s1 s2' v f o)
      ∧ (∀ status body,
        imageFlowHandler base refs up s1 s2 v f o = HttpResponse.pipelineJson status body →
        body.step2Executed = some false →
        body.prompt2 = body.prompt1 ∧ body.isPromptGenerated = true ∧ status = 200)
      ∧ (0 < jsLength (jsTrim (optStr up)) →
        ∀ body,
        imageFlowHandler base refs up s1 s2 v f o = HttpResponse.pipelineJson 200 body →
        body.step2Executed = some true)
      ∧ (¬0 < jsLength (jsTrim (optStr up)) →
        ∀ body,
        imageFlowHandler base refs up s1 s2 v f o = HttpResponse.pipelineJson 200 body →
        body.step2Executed = some false ∧ body.prompt2 = body.prompt1) := by
  intro base refs up s1 s2 s2' v f o
  refine ⟨?_, ?_, ?_, ?_⟩
  · intro hu
    simp only [imageFlowHandler, if_neg hu]
  · intro status body h hflag
    rcases imageFlowHandler_shape base refs up s1 s2 v f o with
      ⟨p1, p2, err, heq⟩ | ⟨p1, e, h1, hwhich, heq⟩ |
      ⟨p1, p2, flag, img, out, h1, hg, ho, hdisj, heq⟩
    · rw [heq] at h
      injection h with hs hb
      rw [← hb] at hflag
      exact absurd hflag (by simp [shortCircuitBody])
    · rw [heq] at h
      cases e with
      | http s m => exact HttpResponse.noConfusion h
      | generic m => exact HttpResponse.noConfusion h
    · rw [heq] at h
      injection h with hs hb
      rw [← hb] at hflag
      have hflag' : flag = false := by simpa [successBody] using hflag
      subst hflag'
      rcases hdisj with ⟨_, _, hcontra⟩ | ⟨_, hp, _⟩
      · exact Bool.noConfusion hcontra
      · subst hp
        exact ⟨by simp [← hb, successBody], by simp [← hb, successBody], hs.symm⟩
  · intro hu body h
    rcases imageFlowHandler_shape base refs up s1 s2 v f o with
      ⟨p1, p2, err, heq⟩ | ⟨p1, e, h1, hwhich, heq⟩ |
      ⟨p1, p2, flag, img, out, h1, hg, ho, hdisj, heq⟩
    · rw [heq] at h
      injection h with hs hb
      exact absurd hs (by decide)
    · rw [heq] at h
      cases e with
      | http s m => exact HttpResponse.noConfusion h
      | generic m => exact HttpResponse.noConfusion h
    · rw [heq] at h
      injection h with hs hb
      rcases hdisj with ⟨_, _, hflag⟩ | ⟨hcontra, _, _⟩
      · subst hflag
        simp [← hb, successBody]
      · exact absurd hu hcontra
  · intro hu body h
    rcases imageFlowHandler_shape base refs up s1 s2 v f o with
      ⟨p1, p2, err, heq⟩ | ⟨p1, e, h1, hwhich, heq⟩ |
      ⟨p1, p2, flag, img, out, h1, hg, ho, hdisj, heq⟩
    · rw [heq] at h
      injection h with hs hb
      exact absurd hs (by decide)
    · rw [heq] at h
      cases e with
      | http s m => exact HttpResponse.noConfusion h
      | generic m => exact HttpResponse.noConfusion h
    · rw [heq] at h
      injection h with hs hb
      rcases hdisj with ⟨hcontra, _, _⟩ | ⟨_, hp, hflag⟩
      · exact absurd hcontra hu
      · subst hflag
        subst hp
        exact ⟨by simp [← hb, successBody], by simp [← hb, successBody]⟩

/-- Witness for `c5_step2_skip_invariant`: a concrete instruction-free
request whose result ignores the Stage-2 outcome, and its 200 response
with `step2Executed = false` and equal prompts. -/
theorem c5_step2_skip_invariant_witness :
    imageFlowHandler (StoredAsset.mk "bk" "bu") [] none (Except.ok "a tall ship")
        (Except.ok (PGResponse.mk "first" true)) (Except.ok ([2] : ImgBytes))
        (Except.ok ([3] : ImgBytes)) (Except.ok (StoredAsset.mk "ok" "ou"))
      = imageFlowHandler (StoredAsset.mk "bk" "bu") [] none (Except.ok "a tall ship")
          (Except.error (AppError.generic "down")) (Except.ok ([2] : ImgBytes))
          (Except.ok ([3] : ImgBytes)) (Except.ok (StoredAsset.mk "ok" "ou"))
    ∧ (successBody (StoredAsset.mk "bk" "bu") [] "a tall ship" "a tall ship" false
          (StoredAsset.mk "ok" "ou")).step2Executed = some false
      ∧ (successBody (StoredAsset.mk "bk" "bu") [] "a tall ship" "a tall ship" false
          (StoredAsset.mk "ok" "ou")).prompt2
        = (successBody (StoredAsset.mk "bk" "bu") [] "a tall ship" "a tall ship" false
            (StoredAsset.mk "ok" "ou")).prompt1 :=
  ⟨(c5_step2_skip_invariant (StoredAsset.mk "bk" "bu") [] none (Except.ok "a tall ship")
      (Except.ok (PGResponse.mk "first" true)) (Except.error (AppError.generic "down"))
      (Except.ok ([2] : ImgBytes)) (Except.ok ([3] : ImgBytes))
      (Except.ok (StoredAsset.mk "ok" "ou"))).1 (by decide),
   (by decide),
   ((c5_step2_skip_invariant (StoredAsset.mk "bk" "bu") [] none (Except.ok "a tall ship")
      (Except.ok (PGResponse.mk "first" true)) (Except.ok (PGResponse.mk "first" true))
      (Except.ok ([2] : ImgBytes)) (Except.ok ([3] : ImgBytes))
      (Except.ok (StoredAsset.mk "ok" "ou"))).2.2.2 (by decide)
      (successBody (StoredAsset.mk "bk" "bu") [] "a tall ship" "a tall ship" false
        (StoredAsset.mk "ok" "ou")) (by decide)).2⟩

/-- Claim C6: every pipeline-shaped response with `isPromptGenerated:
false` has a null output image URL and a null output image key; and a
non-null output image URL occurs only in a 200 response with
`isPromptGenerated: true` where the synthesis stage and the output upload
both completed (the URL is the uploaded output's URL). -/
theorem c6_no_output_without_prompt :
    ∀ (base : StoredAsset) (refs : List StoredAsset) (up : Option String)
      (s1 : Except AppError String) (s2 : Except AppError PGResponse)
      (v : Except VertexError ImgBytes) (f : Except String ImgBytes)
      (o : Except AppError StoredAsset) (status : Nat) (body : PipelineBody),
      imageFlowHandler base refs up s1 s2 v f o = HttpResponse.pipelineJson status body →
      (body.isPromptGenerated = false →
        body.outputImage = none ∧ body.outputImageKey = none)
      ∧ (∀ u, body.outputImage = some u →
        body.isPromptGenerated = true ∧ status = 200
          ∧ ∃ img out, generateImageResult v f = Except.ok img
              ∧ o = Except.ok out ∧ u = out.url) := by
  intro base refs up s1 s2 v f o status body h
  rcases imageFlowHandler_shape base refs up s1 s2 v f o with
    ⟨p1, p2, err, heq⟩ | ⟨p1, e, h1, hwhich, heq⟩ |
    ⟨p1, p2, flag, img, out, h1, hg, ho, hdisj, heq⟩
  · rw [heq] at h
    injection h with hs hb
    constructor
    · intro _
      exact ⟨by simp [← hb, shortCircuitBody], by simp [← hb, shortCircuitBody]⟩
    · intro u hu
      rw [← hb] at hu
      exact absurd hu (by simp [shortCircuitBody])
  · rw [heq] at h
    cases e with
    | http s m => exact HttpResponse.noConfusion h
    | generic m => exact HttpResponse.noConfusion h
  · rw [heq] at h
    injection h with hs hb
    constructor
    · intro hgen
      rw [← hb] at hgen
      exact absurd hgen (by simp [successBody])
    · intro u hu
      rw [← hb] at hu
      have hu' : u = out.url := by simpa [successBody] using hu.symm
      exact ⟨by simp [← hb, successBody], hs.symm, img, out, hg, ho, hu'⟩

/-- Witness for `c6_no_output_without_prompt` at a concrete refused
request (502 body with null output fields). -/
theorem c6_no_output_without_prompt_witness :
    (shortCircuitBody "bu" [] (some "cannot") none
        ("OpenAI could not reconstruct the prompt: " ++ "cannot")).outputImage = none
      ∧ (shortCircuitBody "bu" [] (some "cannot") none
          ("OpenAI could not reconstruct the prompt: " ++ "cannot")).outputImageKey = none :=
  (c6_no_output_without_prompt (StoredAsset.mk "bk" "bu") [] none (Except.ok "cannot")
    (Except.ok (PGResponse.mk "p" true)) (Except.ok ([2] : ImgBytes))
    (Except.ok ([3] : ImgBytes)) (Except.ok (StoredAsset.mk "ok" "ou")) 502
    (shortCircuitBody "bu" [] (some "cannot") none
      ("OpenAI could not reconstruct the prompt: " ++ "cannot"))
    (by decide)).1 (by decide)

/-- Is an `Except` an `ok`? -/
def exceptIsOk {e a : Type} : Except e a → Bool
  | .ok _ => true
  | .error _ => false

/-- `ASPECT_RATIO_OPTIONS` from `aspectRatio.ts`. -/
def aspectRatioOptions : List String :=
  ["21:9", "16:9", "3:2", "4:3", "5:4", "1:1", "4:5", "3:4", "2:3", "9:16"]

/-- `DEFAULT_ASPECT_RATIO` from `aspectRatio.ts`. -/
def defaultAspectRatio : String := "1:1"

/-- `ensureValidAspectRatio` from `aspectRatio.ts`: keep a truthy value
found in the option list, otherwise coerce to the default. -/
def ensureValidAspectRatio (value : Option String) : String :=
  if truthy value = true ∧ aspectRatioOptions.contains (optStr value) = true then
    optStr value
  else
    defaultAspectRatio

/-- `required` from the backend config: the environment value, else the
given fallback; an absent or empty result is a startup error. -/
def requiredVar (env : String → Option String) (name : String)
    (fallbackVal : Option String) : Except String String :=
  let value :=
    match env name with
    | some s => some s
    | none => fallbackVal
  match value with
  | some s =>
    if s = "" then .error ("Missing required environment variable " ++ name)
    else .ok s
  | none => .error ("Missing required environment variable " ++ name)

/-- `resolveCredentialPath` from the backend config, with the process's
working directory and the filesystem's existence check passed in (`path.join`
is modelled as plain separator concatenation, which is all these inputs
need): a falsy path is ignored; a relative path is resolved against `cwd`;
a missing file is a startup error. -/
def resolveCredentialPath (cwd : String) (fileExists : String → Bool)
    (filePath : Option String) : Except String (Option String) :=
  match filePath with
  | none => .ok none
  | some fp =>
    if fp = "" then .ok none
    else
      let absolutePath := if jsStartsWith fp "/" then fp else cwd ++ "/" ++ fp
      if fileExists absolutePath then .ok (some absolutePath)
      else .error ("Google credential file not found at " ++ absolutePath
        ++ ". Update GOOGLE_APPLICATION_CREDENTIALS.")

/-- `DEFAULT_SYSTEM_PROMPT_IMAGE_UNDERSTAND` from the backend config. -/
def defaultSystemPromptImageUnderstand : String :=
  "You are an expert \"Image Understanding → Image Prompt Reconstruction\" model.\n\nYour task is to convert an input image into a faithful reconstruction prompt, enabling a text-to-image model to recreate the image as closely as possible.\n\nGOALS:\nProduce a single highly detailed prompt that captures:\n- The subject(s)\n- Identity traits\n- Pose, body language, positioning\n- Clothing (if any)\n- Background + environment\n- Lighting\n- Mood / tone\n- Camera settings\n- Style (realistic, cinematic, candid, etc.)\n\nOUTPUT FORMAT:\nReturn only the final prompt, no explanation."

/-- `DEFAULT_SYSTEM_PROMPT_PROMPT_EDITOR` from the backend config. -/
def defaultSystemPromptPromptEditor : String :=
  "You are an expert \"Prompt Editor & Scene Preservation Engine\" for image models.\n\nYour task is to take:\n- Base prompt (original scene description)\n- User modification instructions\n- Optional reference images\n\nAnd produce a final prompt that:\n- Preserves all unchanged elements of the base prompt\n- Faithfully applies the user's requested modifications\n- Maintains consistent identity, lighting, and camera style\n- Preserves environmental details unless the user wants them changed\n\nOUTPUT FORMAT:\nReturn only the final prompt, highly structured and image-ready."

/-- The backend's `config` value (the `config.ts` object literal).  `PORT`
and `MAX_REFERENCE_IMAGES` are kept as raw strings because their `Number()`
conversion is a platform concern no claim depends on. -/
structure AppConfig where
  portRaw : String
  openaiApiKey : Option String
  systemPromptImageUnderstand : String
  systemPromptPromptEditor : String
  storageAccessKeyId : String
  storageSecretAccessKey : String
  storageBucket : String
  storageEndpoint : String
  storageFolder : String
  storagePublicBaseUrl : String
  googleProjectId : String
  googleLocation : String
  googleCredentialsPath : Option String
  falApiKey : Option String
  falEndpoint : String
  falModelId : String
  falAspectRatio : String
  imageOutputFormat : String
  maxReferenceImagesRaw : String

/-- Configuration loading (`config.ts`): the object literal evaluates its
throwing parts in source order — the five required storage variables, the
two Google variables (which have non-empty defaults), then the credentials
path.  The OpenAI key is read with no `required` wrapper: its absence does
not fail loading. -/
def loadConfig (env : String → Option String) (cwd : String)
    (fileExists : String → Bool) : Except String AppConfig :=
  match requiredVar env "S3_ACCESS_KEY" none with
  | .error e => .error e
  | .ok accessKey =>
  match requiredVar env "S3_SECRET_KEY" none with
  | .error e => .error e
  | .ok secretKey =>
  match requiredVar env "S3_BUCKET_NAME" none with
  | .error e => .error e
  | .ok bucket =>
  match requiredVar env "S3_ENDPOINT_URL" none with
  | .error e => .error e
  | .ok endpointUrl =>
  match requiredVar env "S3_PUBLIC_LINK" none with
  | .error e => .error e
  | .ok publicBase =>
  match requiredVar env "GOOGLE_VERTEX_PROJECT_ID" (some "nano-banana-472210") with
  | .error e => .error e
  | .ok projectId =>
  match requiredVar env "GOOGLE_VERTEX_LOCATION" (some "us-central1") with
  | .error e => .error e
  | .ok location =>
  match resolveCredentialPath cwd fileExists (env "GOOGLE_APPLICATION_CREDENTIALS") with
  | .error e => .error e
  | .ok credsPath =>
    .ok
      { portRaw := optStr (env "PORT")
        openaiApiKey := env "OPENAI_API_KEY"
        systemPromptImageUnderstand :=
          (env "SYSTEM_PROMPT_IMAGE_UNDERSTAND").getD defaultSystemPromptImageUnderstand
        systemPromptPromptEditor :=
          (env "SYSTEM_PROMPT_PROMPT_EDITOR").getD defaultSystemPromptPromptEditor
        storageAccessKeyId := accessKey
        storageSecretAccessKey := secretKey
        storageBucket := bucket
        storageEndpoint := endpointUrl
        storageFolder := (env "S3_FOLDER").getD "internaluse"
        storagePublicBaseUrl := publicBase
        googleProjectId := projectId
        googleLocation := location
        googleCredentialsPath := credsPath
        falApiKey := env "FAL_API_KEY"
        falEndpoint := (env "FAL_GEMINI_ENDPOINT").getD "https://fal.run/fal-ai/gemini-25-flash-image"
        falModelId := (env "FAL_GEMINI_MODEL_ID").getD "fal-ai/gemini-25-flash-image"
        falAspectRatio := ensureValidAspectRatio (env "FAL_GEMINI_ASPECT_RATIO")
        imageOutputFormat := (env "IMAGE_OUTPUT_FORMAT").getD "png"
        maxReferenceImagesRaw := optStr (env "MAX_REFERENCE_IMAGES") }

/-- The `OpenAIService` constructor (`openaiService.ts` lines 87-92):
`apiKey || config.openai?.apiKey || ''`, throwing when the result is
empty.  Returns the effective key on success. -/
def mkOpenAIService (apiKeyArg : Option String) (cfg : AppConfig) : Except String String :=
  let apiKey := jsOr (optStr apiKeyArg) (jsOr (optStr cfg.openaiApiKey) "")
  if apiKey = "" then
    .error "OpenAI API key is required. Set OPENAI_API_KEY environment variable."
  else
    .ok apiKey

/-- The fallback-key guard at the top of `FalImageService.generateImage`
(`falImageService` lines 36-40): a falsy `FAL_API_KEY` fails only when the
fallback is actually invoked. -/
def falFallbackKeyGate (cfg : AppConfig) : Except String Unit :=
  if truthy cfg.falApiKey = false then
    .error "FAL_API_KEY must be configured to use fal.ai as a fallback provider."
  else
    .ok ()

/-- Startup followed by the first request's `createOpenAIService()` call:
configuration loading, then the OpenAI service constructor. -/
def firstRequestOpenAIService (env : String → Option String) (cwd : String)
    (fileExists : String → Bool) : Except String String :=
  match loadConfig env cwd fileExists with
  | .error e => .error e
  | .ok cfg => mkOpenAIService none cfg

/-- An environment with all required storage variables but no
`OPENAI_API_KEY`. -/
def env0 : String → Option String := fun name =>
  if name = "S3_ACCESS_KEY" then some "AK" else
  if name = "S3_SECRET_KEY" then some "SK" else
  if name = "S3_BUCKET_NAME" then some "bucket" else
  if name = "S3_ENDPOINT_URL" then some "https://s3.example.com" else
  if name = "S3_PUBLIC_LINK" then some "https://cdn.example.com/" else
  none

/-- Claim C9 counterexample: with `OPENAI_API_KEY` absent from the
environment, configuration loading succeeds (no startup failure, contrary
to the claim); the failure surfaces only when the first request constructs
the OpenAI service. -/
theorem c9_counterexample :
    env0 "OPENAI_API_KEY" = none
      ∧ exceptIsOk (loadConfig env0 "/app" (fun _ => false)) = true
      ∧ firstRequestOpenAIService env0 "/app" (fun _ => false)
          = Except.error "OpenAI API key is required. Set OPENAI_API_KEY environment variable." := by
  refine ⟨rfl, ?_, ?_⟩
  · decide
  · decide

/-- Claim C9 as amended: the vision-model key is read into the
configuration with no required-variable check (loading succeeds and simply
records the environment's value), and its absence is detected lazily — the
per-request OpenAI service constructor throws; likewise the fallback
provider's key absence is detected only when the fallback is invoked. -/
theorem c9_amended_lazy_openai_key :
    ∀ (env : String → Option String) (cwd : String) (fileExists : String → Bool)
      (cfg : AppConfig),
      (loadConfig env cwd fileExists = Except.ok cfg →
        cfg.openaiApiKey = env "OPENAI_API_KEY")
      ∧ (truthy cfg.openaiApiKey = false →
        mkOpenAIService none cfg
          = Except.error "OpenAI API key is required. Set OPENAI_API_KEY environment variable.")
      ∧ (truthy cfg.falApiKey = false →
        falFallbackKeyGate cfg
          = Except.error "FAL_API_KEY must be configured to use fal.ai as a fallback provider.") := by
  intro env cwd fileExists cfg
  refine ⟨?_, ?_, ?_⟩
  · intro h
    simp only [loadConfig] at h
    repeat' split at h
    all_goals
      first
        | exact Except.noConfusion h
        | (injection h with h'
           subst h'
           rfl)
  · intro ht
    cases hk : cfg.openaiApiKey with
    | none => simp [mkOpenAIService, jsOr, optStr, hk]
    | some s =>
      rw [hk] at ht
      have hs : s = "" := by simpa [truthy] using ht
      subst hs
      simp [mkOpenAIService, jsOr, optStr, hk]
  · intro ht
    simp [falFallbackKeyGate, ht]

/-- Witness for `c9_amended_lazy_openai_key` at a concrete configuration
with no OpenAI key and no fal key. -/
theorem c9_amended_lazy_openai_key_witness :
    mkOpenAIService none
        (AppConfig.mk "4000" none "su" "se" "ak" "sk" "b" "ep" "f" "pb" "gp" "gl"
          none none "fe" "fm" "1:1" "png" "2")
      = Except.error "OpenAI API key is required. Set OPENAI_API_KEY environment variable."
    ∧ falFallbackKeyGate
        (AppConfig.mk "4000" none "su" "se" "ak" "sk" "b" "ep" "f" "pb" "gp" "gl"
          none none "fe" "fm" "1:1" "png" "2")
      = Except.error "FAL_API_KEY must be configured to use fal.ai as a fallback provider." :=
  ⟨(c9_amended_lazy_openai_key env0 "/app" (fun _ => false)
      (AppConfig.mk "4000" none "su" "se" "ak" "sk" "b" "ep" "f" "pb" "gp" "gl"
        none none "fe" "fm" "1:1" "png" "2")).2.1 (by decide),
   (c9_amended_lazy_openai_key env0 "/app" (fun _ => false)
      (AppConfig.mk "4000" none "su" "se" "ak" "sk" "b" "ep" "f" "pb" "gp" "gl"
        none none "fe" "fm" "1:1" "png" "2")).2.2 (by decide)⟩
